import Mathlib

/-!
Shallow embedding of the simulation core of app.py (housing_viability).

The month-by-month amortization loop (app.py lines 851-973), the
depreciation / tax / cashflow loop (lines 1013-1189) and the IRR fallback
(lines 1958-1966) are translated into executable Lean definitions over the
rationals.  Calendar months are represented as absolute month numbers
(year * 12 + month - 1), matching the day-1 pandas timestamps of the source.
-/

/-- Truncating integer conversion, as the Python builtin int applied to a
float: rounds toward zero. -/
def pyInt (q : ℚ) : ℤ :=
  if 0 ≤ q then ⌊q⌋ else -⌊-q⌋

/-- Calendar year of an absolute month number. -/
def yearOf (m : ℤ) : ℤ := m.fdiv 12

/-- Calendar month (1..12) of an absolute month number. -/
def monthOf (m : ℤ) : ℤ := m % 12 + 1

/-- The configuration consumed by the simulation: the inputs of app.py that
the monthly loops read, after the purely presentational aggregation already
performed upstream (for example total_purchase_price = kaufpreis +
stellplatz, rent_total, maintenance_total).  The loan term month counts
kfw_months and main_months are the values computed at lines 823-824. -/
structure Config where
  total_purchase_price : ℚ
  total_nbk : ℚ
  land_ratio : ℚ
  furnishing_costs : ℚ
  eigenkapital : ℚ
  rent_total : ℚ
  rent_growth_rate : ℚ
  maintenance_total : ℚ
  maintenance_growth : ℚ
  furnishing_annual_depreciation_rate : ℚ
  furnishing_depreciation_years : ℕ
  sonder_afa_rate : ℚ
  sonder_afa_years : ℕ
  sonder_afa_base_amount : ℚ
  degressive_afa_rate : ℚ
  degressive_years : ℕ
  linear_years : ℚ
  kfw_loan_amount : ℚ
  kfw_interest_rate : ℚ
  kfw_months : ℕ
  kfw_tilgung_free_months : ℕ
  main_loan_rate : ℚ
  main_months : ℕ
  main_tilgung_free_months : ℕ
  bereitstellungszins : ℚ
  grace_period_months : ℕ
  tax_rate : ℚ
  contract_year : ℤ
  contract_month : ℤ
  endc_year : ℤ
  endc_month : ℤ
  output_years : ℕ
  payment_schedule : List (ℚ × ℕ)

/-- total_investment = total_purchase_price + total_nbk (app.py line 176). -/
def Config.total_investment (c : Config) : ℚ :=
  c.total_purchase_price + c.total_nbk

/-- total_afa_value = total_investment * land_ratio (app.py line 177). -/
def Config.total_afa_value (c : Config) : ℚ :=
  c.total_investment * c.land_ratio

/-- main_loan_amount = total_investment - eigenkapital - kfw_loan_amount
(app.py line 439). -/
def Config.main_loan_amount (c : Config) : ℚ :=
  c.total_investment - c.eigenkapital - c.kfw_loan_amount

/-- yearly_furnishing_depreciation (app.py line 266). -/
def Config.yearly_furnishing_depreciation (c : Config) : ℚ :=
  c.furnishing_costs * c.furnishing_annual_depreciation_rate

/-- start_month as an absolute month number (app.py line 582). -/
def Config.startMonth (c : Config) : ℤ :=
  c.contract_year * 12 + (c.contract_month - 1)

/-- rent_start: the month after the construction-end month (app.py
lines 583-585). -/
def Config.rentStart (c : Config) : ℤ :=
  c.endc_year * 12 + (c.endc_month - 1) + 1

/-- last simulated month: December of contract_year + output_years - 1
(app.py lines 804, 857). -/
def Config.lastMonth (c : Config) : ℤ :=
  (c.contract_year + (c.output_years : ℤ) - 1) * 12 + 11

/-- total_months (app.py lines 858-862). -/
def Config.totalMonths (c : Config) : ℕ :=
  (c.lastMonth - c.startMonth + 1).toNat

/-- useful_years = degressive_years + linear_years, truncated to an integer
where app.py applies int() (lines 343, 1060). -/
def Config.useful_years_int (c : Config) : ℤ :=
  pyInt ((c.degressive_years : ℚ) + c.linear_years)

/-- The fixed monthly annuity payment (app.py lines 826-844): the standard
PMT closed form when the rate is positive, otherwise straight-line. -/
def monthlyPayment (amount rate : ℚ) (months : ℕ) : ℚ :=
  if 0 < rate then
    amount * (rate / 12) / (1 - ((1 + rate / 12) ^ months)⁻¹)
  else
    amount / (months : ℚ)

/-- monthly_payment_kfw (app.py lines 826-834). -/
def Config.monthly_payment_kfw (c : Config) : ℚ :=
  monthlyPayment c.kfw_loan_amount c.kfw_interest_rate c.kfw_months

/-- monthly_payment_main (app.py lines 836-844). -/
def Config.monthly_payment_main (c : Config) : ℚ :=
  monthlyPayment c.main_loan_amount c.main_loan_rate c.main_months

/-- The mutable accumulators threaded through the amortization loop:
bal_kfw, bal_main, cum_main_drawn, equity_rem (app.py lines 852-855). -/
structure AmortState where
  bal_kfw : ℚ
  bal_main : ℚ
  cum_main_drawn : ℚ
  equity_rem : ℚ

/-- One row of monthly_amort (app.py lines 935-973); bal_kfw and bal_main
are the end-of-month balances stored in the row. -/
structure AmortEntry where
  kfw_draw : ℚ
  main_draw : ℚ
  equity_used : ℚ
  interest_kfw : ℚ
  principal_kfw : ℚ
  interest_main_drawn : ℚ
  principal_main : ℚ
  provision : ℚ
  interest_main_total : ℚ
  bal_kfw : ℚ
  bal_main : ℚ
  main_undrawn : ℚ

/-- The draw of month m: transaction costs plus furnishing on the first
month, plus every installment whose offset matches m (app.py
lines 866-873). -/
def drawAt (c : Config) (m : ℕ) : ℚ :=
  (if m = 0 then c.total_nbk + c.furnishing_costs else 0) +
    (c.payment_schedule.map
      (fun si => if si.2 = m then c.total_purchase_price * si.1 else 0)).sum

/-- Result of the equity-first waterfall and the loan-draw priority. -/
structure DrawOut where
  st : AmortState
  kfw_draw : ℚ
  main_draw : ℚ
  equity_used : ℚ

/-- Equity-first waterfall and loan draws (app.py lines 875-891): equity is
consumed first, the financed remainder fills the KfW loan up to its limit,
and the main loan absorbs whatever is left. -/
def drawPhase (c : Config) (draw : ℚ) (s : AmortState) : DrawOut :=
  let equity_used := min draw s.equity_rem
  let equity_rem1 := s.equity_rem - equity_used
  let financed0 := max 0 (draw - equity_used)
  let kfw_draw :=
    if 0 < financed0 ∧ s.bal_kfw < c.kfw_loan_amount then
      min financed0 (c.kfw_loan_amount - s.bal_kfw)
    else 0
  let financed1 := financed0 - kfw_draw
  let main_draw := if 0 < financed1 then financed1 else 0
  ⟨⟨s.bal_kfw + kfw_draw, s.bal_main + main_draw,
    s.cum_main_drawn + main_draw, equity_rem1⟩,
   kfw_draw, main_draw, equity_used⟩

/-- Result of the interest/principal phase of one month. -/
structure PayOut where
  st : AmortState
  interest_kfw : ℚ
  principal_kfw : ℚ
  interest_main_drawn : ℚ
  principal_main : ℚ
  provision : ℚ
  interest_main_total : ℚ

/-- Interest, principal and commitment fee of month m, acting on the
post-draw state (app.py lines 893-933).  Before rent_start both loans are
interest-only and the bereitstellungszins is charged once the grace period
has elapsed; from rent_start on each loan pays its fixed annuity, with the
principal clamped to the balance and suppressed during its tilgung-free
months. -/
def payPhase (c : Config) (m : ℕ) (s : AmortState) : PayOut :=
  let date := c.startMonth + (m : ℤ)
  if date < c.rentStart then
    let interest_kfw :=
      if 0 < s.bal_kfw then s.bal_kfw * c.kfw_interest_rate / 12 else 0
    let interest_main_drawn :=
      if 0 < s.bal_main then s.bal_main * c.main_loan_rate / 12 else 0
    let provision :=
      if c.grace_period_months ≤ m then
        max 0 (c.main_loan_amount - s.bal_main) * c.bereitstellungszins
      else 0
    ⟨s, interest_kfw, 0, interest_main_drawn, 0, provision,
     interest_main_drawn + provision⟩
  else
    let months_since_rent := date - c.rentStart
    let interest_kfw := s.bal_kfw * c.kfw_interest_rate / 12
    let principal_kfw :=
      if months_since_rent < (c.kfw_tilgung_free_months : ℤ) then 0
      else min (max 0 (c.monthly_payment_kfw - interest_kfw)) s.bal_kfw
    let interest_main_drawn := s.bal_main * c.main_loan_rate / 12
    let principal_main :=
      if months_since_rent < (c.main_tilgung_free_months : ℤ) then 0
      else min (max 0 (c.monthly_payment_main - interest_main_drawn)) s.bal_main
    ⟨⟨s.bal_kfw - principal_kfw, s.bal_main - principal_main,
      s.cum_main_drawn, s.equity_rem⟩,
     interest_kfw, principal_kfw, interest_main_drawn, principal_main, 0,
     interest_main_drawn⟩

/-- One iteration of the amortization loop (app.py lines 863-973). -/
def amortStep (c : Config) (m : ℕ) (s : AmortState) : AmortState × AmortEntry :=
  let d := drawPhase c (drawAt c m) s
  let p := payPhase c m d.st
  (p.st,
   ⟨d.kfw_draw, d.main_draw, d.equity_used,
    p.interest_kfw, p.principal_kfw, p.interest_main_drawn, p.principal_main,
    p.provision, p.interest_main_total,
    p.st.bal_kfw, p.st.bal_main,
    max 0 (c.main_loan_amount - d.st.cum_main_drawn)⟩)

/-- Initial accumulators (app.py lines 852-855). -/
def initState (c : Config) : AmortState :=
  ⟨0, 0, 0, c.eigenkapital⟩

/-- Accumulator state before month n is processed. -/
def amortState (c : Config) : ℕ → AmortState
  | 0 => initState c
  | n + 1 => (amortStep c n (amortState c n)).1

/-- The monthly_amort row of month n. -/
def amortEntry (c : Config) (n : ℕ) : AmortEntry :=
  (amortStep c n (amortState c n)).2

/-- The full monthly_amort table (app.py lines 851-973). -/
def monthly_amort (c : Config) : List AmortEntry :=
  (List.range c.totalMonths).map (amortEntry c)

/-- Rent of a month (app.py lines 1016-1024): zero before rent_start, then
the base rent escalated once per full 12 months elapsed since rent_start. -/
def rentAt (c : Config) (date : ℤ) : ℚ :=
  if c.rentStart ≤ date then
    let months_since_rent := date - c.rentStart
    let growth_years := max 0 (months_since_rent.fdiv 12)
    c.rent_total * (1 + c.rent_growth_rate) ^ growth_years.toNat
  else 0

/-- Maintenance of a month (app.py lines 1126-1131): zero before
rent_start, then the base level escalated once per calendar year from the
second January after the rent_start year. -/
def maintenanceAt (c : Config) (date : ℤ) : ℚ :=
  if c.rentStart ≤ date then
    let growth_years := max 0 (yearOf date - (yearOf c.rentStart + 1))
    c.maintenance_total * (1 + c.maintenance_growth) ^ growth_years.toNat
  else 0

/-- Monthly Sonder-AfA inside the rental phase (app.py lines 1030-1046):
in the completion year the full annual amount is spread over the months
remaining in that calendar year from the rent_start month; in later active
years it is the annual amount over 12; zero once sonder_afa_years calendar
years have passed. -/
def sonderMonthlyAt (c : Config) (date : ℤ) : ℚ :=
  let year_index := yearOf date - yearOf c.rentStart
  let annual_sonder := c.sonder_afa_base_amount * c.sonder_afa_rate
  if year_index < (c.sonder_afa_years : ℤ) then
    if year_index = 0 then
      let remaining_months_in_year : ℤ := 12 - (monthOf c.rentStart - 1)
      if 0 < remaining_months_in_year then
        annual_sonder / (remaining_months_in_year : ℚ)
      else annual_sonder / 12
    else annual_sonder / 12
  else 0

/-- Output of the degressive/linear depreciation update of one month. -/
structure DegOut where
  dm : ℚ
  lm : ℚ
  rem : ℚ

/-- Degressive and linear AfA update of one rental month (app.py
lines 1048-1087): inside the degressive window the remaining base is
reduced by base times rate over 12; afterwards, inside the linear window
capped to the simulated horizon, by a straight-line re-leveling of the
current remaining base; in both cases the base is floored at zero. -/
def degLinStep (c : Config) (date : ℤ) (deg : ℚ) : DegOut :=
  let degressive_end_month :=
    c.rentStart + 12 * (c.degressive_years : ℤ) - 1
  let linear_end_month := c.rentStart + 12 * c.useful_years_int - 1
  if date ≤ degressive_end_month then
    let dm := deg * c.degressive_afa_rate / 12
    ⟨dm, 0, max 0 (deg - dm)⟩
  else
    let effective_linear_end := min linear_end_month c.lastMonth
    let remaining_linear_months := effective_linear_end - date + 1
    if 0 < remaining_linear_months then
      if 0 < deg then
        let lm := deg / (remaining_linear_months : ℚ)
        ⟨0, lm, max 0 (deg - lm)⟩
      else ⟨0, 0, deg⟩
    else ⟨0, 0, deg⟩

/-- Monthly furnishing depreciation (app.py lines 1089-1121): active for
furnishing_depreciation_years years from rent_start, spread over the
remaining months of the first calendar year, over the window months of the
final calendar year (a full 12 if that year is the last output year), and
over 12 in interior years. -/
def furnishingMonthlyAt (c : Config) (date : ℤ) : ℚ :=
  let annual_furnishing := c.yearly_furnishing_depreciation
  let last_furnishing_month :=
    c.rentStart + 12 * (c.furnishing_depreciation_years : ℤ) - 1
  if date < c.rentStart ∨ last_furnishing_month < date then 0
  else if yearOf date = yearOf c.rentStart then
    let remaining_months_in_year : ℤ := 12 - (monthOf c.rentStart - 1)
    if 0 < remaining_months_in_year then
      annual_furnishing / (remaining_months_in_year : ℚ)
    else annual_furnishing / 12
  else if yearOf date = yearOf last_furnishing_month then
    let months_in_final_year : ℤ :=
      if yearOf date = c.contract_year + (c.output_years : ℤ) - 1 then 12
      else monthOf last_furnishing_month
    if 0 < months_in_final_year then
      annual_furnishing / (months_in_final_year : ℚ)
    else annual_furnishing / 12
  else annual_furnishing / 12

/-- One row of the monthly cashflow table (app.py lines 1148-1189). -/
structure CashRecord where
  rent : ℚ
  sonder : ℚ
  degressive : ℚ
  linearAfa : ℚ
  furnishing : ℚ
  maintenance : ℚ
  interest_total : ℚ
  provision : ℚ
  gross_income : ℚ
  tax_refund : ℚ
  cashflow : ℚ

/-- One iteration of the cashflow loop (app.py lines 1013-1189), threading
the remaining degressive base and consuming the amortization row of the
month.  Depreciation components are zero before rent_start (and the
remaining degressive base is untouched); taxable income and the tax
adjustment follow lines 1133-1147. -/
def cashStep (c : Config) (m : ℕ) (deg : ℚ) (e : AmortEntry) :
    ℚ × CashRecord :=
  let date := c.startMonth + (m : ℤ)
  let rent := rentAt c date
  let d := if c.rentStart ≤ date then degLinStep c date deg else ⟨0, 0, deg⟩
  let sonder_m := if c.rentStart ≤ date then sonderMonthlyAt c date else 0
  let furnishing_m :=
    if c.rentStart ≤ date then furnishingMonthlyAt c date else 0
  let afa := sonder_m + d.dm + d.lm + furnishing_m
  let maintenance := maintenanceAt c date
  let interest_total := e.interest_kfw + e.interest_main_total
  let provision := e.provision
  let gross_income := rent - interest_total - afa - maintenance
  let tax_refund := -gross_income * c.tax_rate
  let cashflow := rent - interest_total - provision - maintenance + tax_refund
  (d.rem,
   ⟨rent, sonder_m, d.dm, d.lm, furnishing_m, maintenance,
    interest_total, provision, gross_income, tax_refund, cashflow⟩)

/-- remaining_deg_value before month n is processed; initialized to
total_afa_value (app.py line 799). -/
def remaining_deg_value (c : Config) : ℕ → ℚ
  | 0 => c.total_afa_value
  | n + 1 => (cashStep c n (remaining_deg_value c n) (amortEntry c n)).1

/-- The cashflow record of month n. -/
def cashRecord (c : Config) (n : ℕ) : CashRecord :=
  (cashStep c n (remaining_deg_value c n) (amortEntry c n)).2

/-- Net present value of a discrete cashflow series at rate r, entry i
discounted by (1 + r) to the power i. -/
def npvAux (r : ℚ) : ℕ → List ℚ → ℚ
  | _, [] => 0
  | i, cf :: t => cf / (1 + r) ^ i + npvAux r (i + 1) t

/-- Derivative of the net present value in the rate. -/
def npvDerivAux (r : ℚ) : ℕ → List ℚ → ℚ
  | _, [] => 0
  | i, cf :: t => -(i : ℚ) * cf / (1 + r) ^ (i + 1) + npvDerivAux r (i + 1) t

/-- Modelled from the spec: the repository delegates IRR root-finding to
the external numpy_financial library (npf.irr, app.py line 1960), which is
not part of this repository.  Per section 4.5 and the design note of
section 9 of the spec, it is modelled as a bounded Newton iteration with a
fixed iteration cap and convergence tolerance, returning none on
non-convergence. -/
def irrNewton (cfs : List ℚ) : ℕ → ℚ → Option ℚ
  | 0, r => if |npvAux r 0 cfs| ≤ 1 / 1000000 then some r else none
  | n + 1, r =>
    if |npvAux r 0 cfs| ≤ 1 / 1000000 then some r
    else
      let d := npvDerivAux r 0 cfs
      if d = 0 then none
      else irrNewton cfs n (r - npvAux r 0 cfs / d)

/-- A degenerate cashflow series: all entries of the same sign. -/
def allSameSign (cfs : List ℚ) : Prop :=
  (∀ cf ∈ cfs, 0 ≤ cf) ∨ (∀ cf ∈ cfs, cf ≤ 0)

instance (cfs : List ℚ) : Decidable (allSameSign cfs) := by
  unfold allSameSign
  exact inferInstance

/-- Modelled from the spec: the IRR of a series, none when the series is
degenerate (no sign change, where a root-finder has no solution) or the
Newton iteration fails to converge within the cap. -/
def irrModel (cfs : List ℚ) : Option ℚ :=
  if allSameSign cfs then none else irrNewton cfs 50 (1 / 10)

/-- The irr_val fallback of app.py lines 1958-1966: a failed or non-finite
IRR computation is reported as 0, a successful one is scaled to percent;
no exception escapes. -/
def irr_val (cfs : List ℚ) : ℚ :=
  match irrModel cfs with
  | none => 0
  | some v => v * 100

/-- Modelled from the spec (the calendar-January escalation rule that claim
C6 asserts for rent): the base rent escalated once per calendar year
starting with the second January after the rent_start year. -/
def rentCalendarRule (c : Config) (date : ℤ) : ℚ :=
  c.rent_total * (1 + c.rent_growth_rate) ^
    (max 0 (yearOf date - (yearOf c.rentStart + 1))).toNat

/-- A generic concrete configuration used for witnesses: contract
February 2026, construction end December 2026, 30 output years. -/
def cfg0 : Config :=
  { total_purchase_price := 100000
    total_nbk := 5000
    land_ratio := 4/5
    furnishing_costs := 5000
    eigenkapital := 10000
    rent_total := 1000
    rent_growth_rate := 1/50
    maintenance_total := 60
    maintenance_growth := 1/50
    furnishing_annual_depreciation_rate := 1/10
    furnishing_depreciation_years := 10
    sonder_afa_rate := 1/20
    sonder_afa_years := 4
    sonder_afa_base_amount := 90000
    degressive_afa_rate := 1/20
    degressive_years := 10
    linear_years := 2333/100
    kfw_loan_amount := 50000
    kfw_interest_rate := 1/50
    kfw_months := 420
    kfw_tilgung_free_months := 60
    main_loan_rate := 1/25
    main_months := 360
    main_tilgung_free_months := 0
    bereitstellungszins := 1/400
    grace_period_months := 6
    tax_rate := 21/50
    contract_year := 2026
    contract_month := 2
    endc_year := 2026
    endc_month := 12
    output_years := 30
    payment_schedule := [(3/10, 0), (7/10, 10)] }

/-- A concrete configuration whose rental phase starts with the very first
simulated month (construction already over at contract). -/
def cfg1 : Config :=
  { total_purchase_price := 1000
    total_nbk := 0
    land_ratio := 1/2
    furnishing_costs := 0
    eigenkapital := 1000
    rent_total := 10
    rent_growth_rate := 0
    maintenance_total := 1
    maintenance_growth := 0
    furnishing_annual_depreciation_rate := 1/10
    furnishing_depreciation_years := 10
    sonder_afa_rate := 1/20
    sonder_afa_years := 4
    sonder_afa_base_amount := 1000
    degressive_afa_rate := 1/20
    degressive_years := 10
    linear_years := 2333/100
    kfw_loan_amount := 0
    kfw_interest_rate := 0
    kfw_months := 10
    kfw_tilgung_free_months := 0
    main_loan_rate := 0
    main_months := 10
    main_tilgung_free_months := 0
    bereitstellungszins := 0
    grace_period_months := 0
    tax_rate := 1/2
    contract_year := 2026
    contract_month := 1
    endc_year := 2025
    endc_month := 12
    output_years := 1
    payment_schedule := [(1, 0)] }

/-- A concrete configuration on which the main-loan balance exceeds
main_loan_amount already in the first month: the furnishing costs are
financed entirely through the unbounded main loan. -/
def cfg3 : Config :=
  { total_purchase_price := 100000
    total_nbk := 0
    land_ratio := 4/5
    furnishing_costs := 5000
    eigenkapital := 0
    rent_total := 1000
    rent_growth_rate := 0
    maintenance_total := 60
    maintenance_growth := 0
    furnishing_annual_depreciation_rate := 1/10
    furnishing_depreciation_years := 10
    sonder_afa_rate := 1/20
    sonder_afa_years := 4
    sonder_afa_base_amount := 90000
    degressive_afa_rate := 1/20
    degressive_years := 10
    linear_years := 2333/100
    kfw_loan_amount := 0
    kfw_interest_rate := 0
    kfw_months := 120
    kfw_tilgung_free_months := 0
    main_loan_rate := 0
    main_months := 120
    main_tilgung_free_months := 0
    bereitstellungszins := 0
    grace_period_months := 12
    tax_rate := 21/50
    contract_year := 2026
    contract_month := 1
    endc_year := 2026
    endc_month := 12
    output_years := 2
    payment_schedule := [(1, 0)] }

/-- A tiny concrete configuration with a nonzero first-month interest
accrual, for evaluating the tax-adjustment signs. -/
def cfg4 : Config :=
  { total_purchase_price := 0
    total_nbk := 12
    land_ratio := 1/2
    furnishing_costs := 0
    eigenkapital := 0
    rent_total := 10
    rent_growth_rate := 0
    maintenance_total := 0
    maintenance_growth := 0
    furnishing_annual_depreciation_rate := 0
    furnishing_depreciation_years := 1
    sonder_afa_rate := 0
    sonder_afa_years := 1
    sonder_afa_base_amount := 0
    degressive_afa_rate := 0
    degressive_years := 1
    linear_years := 1
    kfw_loan_amount := 12
    kfw_interest_rate := 1
    kfw_months := 12
    kfw_tilgung_free_months := 0
    main_loan_rate := 0
    main_months := 12
    main_tilgung_free_months := 0
    bereitstellungszins := 0
    grace_period_months := 12
    tax_rate := 1/2
    contract_year := 2026
    contract_month := 1
    endc_year := 2026
    endc_month := 12
    output_years := 2
    payment_schedule := [] }

/-- A concrete configuration with a rental start in July, where the
anniversary-based rent escalation and the calendar-January maintenance
escalation visibly differ (July 2028 is 12 months after rent_start but
still in the calendar year before the second January). -/
def cfg6 : Config :=
  { total_purchase_price := 100000
    total_nbk := 0
    land_ratio := 4/5
    furnishing_costs := 0
    eigenkapital := 0
    rent_total := 100
    rent_growth_rate := 1
    maintenance_total := 60
    maintenance_growth := 0
    furnishing_annual_depreciation_rate := 1/10
    furnishing_depreciation_years := 10
    sonder_afa_rate := 1/20
    sonder_afa_years := 4
    sonder_afa_base_amount := 90000
    degressive_afa_rate := 1/20
    degressive_years := 10
    linear_years := 2333/100
    kfw_loan_amount := 0
    kfw_interest_rate := 0
    kfw_months := 120
    kfw_tilgung_free_months := 0
    main_loan_rate := 0
    main_months := 120
    main_tilgung_free_months := 0
    bereitstellungszins := 0
    grace_period_months := 12
    tax_rate := 21/50
    contract_year := 2027
    contract_month := 1
    endc_year := 2027
    endc_month := 6
    output_years := 2
    payment_schedule := [(1, 0)] }


/-! Basic facts about the amortization step. -/

/-- Fields of the pay phase in rental months. -/
lemma payPhase_rental_fields (c : Config) (m : ℕ) (s : AmortState)
    (h : c.rentStart ≤ c.startMonth + (m : ℤ)) :
    (payPhase c m s).interest_kfw = s.bal_kfw * c.kfw_interest_rate / 12 ∧
    (payPhase c m s).principal_kfw =
      (if c.startMonth + (m : ℤ) - c.rentStart < (c.kfw_tilgung_free_months : ℤ)
       then 0
       else min (max 0 (c.monthly_payment_kfw - s.bal_kfw * c.kfw_interest_rate / 12))
         s.bal_kfw) ∧
    (payPhase c m s).st.bal_kfw = s.bal_kfw - (payPhase c m s).principal_kfw ∧
    (payPhase c m s).interest_main_drawn = s.bal_main * c.main_loan_rate / 12 ∧
    (payPhase c m s).principal_main =
      (if c.startMonth + (m : ℤ) - c.rentStart < (c.main_tilgung_free_months : ℤ)
       then 0
       else min (max 0 (c.monthly_payment_main - s.bal_main * c.main_loan_rate / 12))
         s.bal_main) ∧
    (payPhase c m s).st.bal_main = s.bal_main - (payPhase c m s).principal_main ∧
    (payPhase c m s).provision = 0 ∧
    (payPhase c m s).interest_main_total = (payPhase c m s).interest_main_drawn := by
  unfold payPhase
  rw [if_neg (not_lt.mpr h)]
  exact ⟨rfl, rfl, rfl, rfl, rfl, rfl, rfl, rfl⟩

/-- Fields of the pay phase in construction months. -/
lemma payPhase_construction_fields (c : Config) (m : ℕ) (s : AmortState)
    (h : c.startMonth + (m : ℤ) < c.rentStart) :
    (payPhase c m s).provision =
      (if c.grace_period_months ≤ m
       then max 0 (c.main_loan_amount - s.bal_main) * c.bereitstellungszins
       else 0) ∧
    (payPhase c m s).interest_main_total =
      (payPhase c m s).interest_main_drawn + (payPhase c m s).provision ∧
    (payPhase c m s).st = s ∧
    (payPhase c m s).interest_kfw =
      (if 0 < s.bal_kfw then s.bal_kfw * c.kfw_interest_rate / 12 else 0) ∧
    (payPhase c m s).interest_main_drawn =
      (if 0 < s.bal_main then s.bal_main * c.main_loan_rate / 12 else 0) ∧
    (payPhase c m s).principal_kfw = 0 ∧
    (payPhase c m s).principal_main = 0 := by
  unfold payPhase
  rw [if_pos h]
  exact ⟨rfl, rfl, rfl, rfl, rfl, rfl, rfl⟩

lemma drawPhase_kfw_draw_nonneg (c : Config) (draw : ℚ) (s : AmortState) :
    0 ≤ (drawPhase c draw s).kfw_draw := by
  unfold drawPhase
  dsimp only
  split_ifs with h
  · exact le_min h.1.le (by linarith [h.2])
  · exact le_refl 0

lemma drawPhase_main_draw_nonneg (c : Config) (draw : ℚ) (s : AmortState) :
    0 ≤ (drawPhase c draw s).main_draw := by
  unfold drawPhase
  dsimp only
  split_ifs with h h1 h2
  · exact h1.le
  · exact le_refl 0
  · exact h2.le
  · exact le_refl 0

lemma drawPhase_st_bal_kfw (c : Config) (draw : ℚ) (s : AmortState) :
    (drawPhase c draw s).st.bal_kfw = s.bal_kfw + (drawPhase c draw s).kfw_draw :=
  rfl

lemma drawPhase_st_bal_main (c : Config) (draw : ℚ) (s : AmortState) :
    (drawPhase c draw s).st.bal_main = s.bal_main + (drawPhase c draw s).main_draw :=
  rfl

lemma drawPhase_st_bal_nonneg (c : Config) (draw : ℚ) (s : AmortState)
    (hk : 0 ≤ s.bal_kfw) (hm : 0 ≤ s.bal_main) :
    0 ≤ (drawPhase c draw s).st.bal_kfw ∧ 0 ≤ (drawPhase c draw s).st.bal_main := by
  rw [drawPhase_st_bal_kfw, drawPhase_st_bal_main]
  exact ⟨add_nonneg hk (drawPhase_kfw_draw_nonneg c draw s),
    add_nonneg hm (drawPhase_main_draw_nonneg c draw s)⟩

lemma drawPhase_kfw_cap (c : Config) (draw : ℚ) (s : AmortState)
    (h : s.bal_kfw ≤ c.kfw_loan_amount) :
    (drawPhase c draw s).st.bal_kfw ≤ c.kfw_loan_amount := by
  rw [drawPhase_st_bal_kfw]
  unfold drawPhase
  dsimp only
  split_ifs with h1
  · have h2 := min_le_right (max 0 (draw - min draw s.equity_rem))
      (c.kfw_loan_amount - s.bal_kfw)
    linarith
  · linarith

lemma payPhase_st_bal_kfw_nonneg (c : Config) (m : ℕ) (s : AmortState)
    (hk : 0 ≤ s.bal_kfw) : 0 ≤ (payPhase c m s).st.bal_kfw := by
  by_cases h1 : c.startMonth + (m : ℤ) < c.rentStart
  · rw [(payPhase_construction_fields c m s h1).2.2.1]
    exact hk
  · have h2 := payPhase_rental_fields c m s (not_lt.mp h1)
    rw [h2.2.2.1, h2.2.1]
    split_ifs with h3
    · simpa using hk
    · have h4 := min_le_right
        (max 0 (c.monthly_payment_kfw - s.bal_kfw * c.kfw_interest_rate / 12))
        s.bal_kfw
      linarith

lemma payPhase_st_bal_main_nonneg (c : Config) (m : ℕ) (s : AmortState)
    (hm : 0 ≤ s.bal_main) : 0 ≤ (payPhase c m s).st.bal_main := by
  by_cases h1 : c.startMonth + (m : ℤ) < c.rentStart
  · rw [(payPhase_construction_fields c m s h1).2.2.1]
    exact hm
  · have h2 := payPhase_rental_fields c m s (not_lt.mp h1)
    rw [h2.2.2.2.2.2.1, h2.2.2.2.2.1]
    split_ifs with h3
    · simpa using hm
    · have h4 := min_le_right
        (max 0 (c.monthly_payment_main - s.bal_main * c.main_loan_rate / 12))
        s.bal_main
      linarith

lemma payPhase_kfw_cap (c : Config) (m : ℕ) (s : AmortState)
    (hk : 0 ≤ s.bal_kfw) (h : s.bal_kfw ≤ c.kfw_loan_amount) :
    (payPhase c m s).st.bal_kfw ≤ c.kfw_loan_amount := by
  by_cases h1 : c.startMonth + (m : ℤ) < c.rentStart
  · rw [(payPhase_construction_fields c m s h1).2.2.1]
    exact h
  · have h2 := payPhase_rental_fields c m s (not_lt.mp h1)
    rw [h2.2.2.1, h2.2.1]
    split_ifs with h3
    · simpa using h
    · have h4 := le_min
        (le_max_left 0 (c.monthly_payment_kfw - s.bal_kfw * c.kfw_interest_rate / 12))
        hk
      linarith

lemma amortState_bal_nonneg (c : Config) (n : ℕ) :
    0 ≤ (amortState c n).bal_kfw ∧ 0 ≤ (amortState c n).bal_main := by
  induction n with
  | zero => exact ⟨le_refl 0, le_refl 0⟩
  | succ n ih =>
    have hd := drawPhase_st_bal_nonneg c (drawAt c n) (amortState c n) ih.1 ih.2
    exact ⟨payPhase_st_bal_kfw_nonneg c n _ hd.1,
      payPhase_st_bal_main_nonneg c n _ hd.2⟩

lemma amortState_kfw_cap (c : Config) (hcap : 0 ≤ c.kfw_loan_amount) (n : ℕ) :
    (amortState c n).bal_kfw ≤ c.kfw_loan_amount := by
  induction n with
  | zero => exact hcap
  | succ n ih =>
    have hd := drawPhase_st_bal_nonneg c (drawAt c n) (amortState c n)
      (amortState_bal_nonneg c n).1 (amortState_bal_nonneg c n).2
    exact payPhase_kfw_cap c n _ hd.1
      (drawPhase_kfw_cap c (drawAt c n) (amortState c n) ih)

lemma amortEntry_bal_kfw_state (c : Config) (n : ℕ) :
    (amortEntry c n).bal_kfw = (amortState c (n + 1)).bal_kfw := rfl

lemma amortEntry_bal_main_state (c : Config) (n : ℕ) :
    (amortEntry c n).bal_main = (amortState c (n + 1)).bal_main := rfl

/-- C1: in every month at or after rent_start, each loan accrues interest
equal to its (post-draw) balance times the monthly rate, pays principal
equal to min(max(0, annuity payment - interest), balance) except that it is
forced to 0 while the months elapsed since rent_start are fewer than that
loan's tilgung-free month count (independently per loan), and no balance
ever becomes negative. -/
theorem rental_phase_amortization_rule (c : Config) (m : ℕ)
    (h : c.rentStart ≤ c.startMonth + (m : ℤ)) :
    (amortEntry c m).interest_kfw =
      ((amortEntry c m).bal_kfw + (amortEntry c m).principal_kfw) *
        c.kfw_interest_rate / 12 ∧
    (amortEntry c m).principal_kfw =
      (if c.startMonth + (m : ℤ) - c.rentStart < (c.kfw_tilgung_free_months : ℤ)
       then 0
       else min (max 0 (c.monthly_payment_kfw - (amortEntry c m).interest_kfw))
         ((amortEntry c m).bal_kfw + (amortEntry c m).principal_kfw)) ∧
    (amortEntry c m).interest_main_drawn =
      ((amortEntry c m).bal_main + (amortEntry c m).principal_main) *
        c.main_loan_rate / 12 ∧
    (amortEntry c m).principal_main =
      (if c.startMonth + (m : ℤ) - c.rentStart < (c.main_tilgung_free_months : ℤ)
       then 0
       else min (max 0 (c.monthly_payment_main - (amortEntry c m).interest_main_drawn))
         ((amortEntry c m).bal_main + (amortEntry c m).principal_main)) ∧
    0 ≤ (amortEntry c m).bal_kfw ∧ 0 ≤ (amortEntry c m).bal_main := by
  have hp := payPhase_rental_fields c m
    (drawPhase c (drawAt c m) (amortState c m)).st h
  have e1 : (amortEntry c m).interest_kfw =
      (payPhase c m (drawPhase c (drawAt c m) (amortState c m)).st).interest_kfw :=
    rfl
  have e2 : (amortEntry c m).principal_kfw =
      (payPhase c m (drawPhase c (drawAt c m) (amortState c m)).st).principal_kfw :=
    rfl
  have e3 : (amortEntry c m).bal_kfw =
      (payPhase c m (drawPhase c (drawAt c m) (amortState c m)).st).st.bal_kfw :=
    rfl
  have e4 : (amortEntry c m).interest_main_drawn =
      (payPhase c m (drawPhase c (drawAt c m)
        (amortState c m)).st).interest_main_drawn := rfl
  have e5 : (amortEntry c m).principal_main =
      (payPhase c m (drawPhase c (drawAt c m) (amortState c m)).st).principal_main :=
    rfl
  have e6 : (amortEntry c m).bal_main =
      (payPhase c m (drawPhase c (drawAt c m) (amortState c m)).st).st.bal_main :=
    rfl
  have hbk : (amortEntry c m).bal_kfw + (amortEntry c m).principal_kfw =
      (drawPhase c (drawAt c m) (amortState c m)).st.bal_kfw := by
    rw [e3, e2, hp.2.2.1]
    ring
  have hbm : (amortEntry c m).bal_main + (amortEntry c m).principal_main =
      (drawPhase c (drawAt c m) (amortState c m)).st.bal_main := by
    rw [e6, e5, hp.2.2.2.2.2.1]
    ring
  refine ⟨?_, ?_, ?_, ?_, ?_, ?_⟩
  · rw [hbk, e1, hp.1]
  · rw [hbk, e2, e1, hp.1, hp.2.1]
  · rw [hbm, e4, hp.2.2.2.1]
  · rw [hbm, e5, e4, hp.2.2.2.1, hp.2.2.2.2.1]
  · exact (amortState_bal_nonneg c (m + 1)).1
  · exact (amortState_bal_nonneg c (m + 1)).2

/-- C3 (amended): in every simulated month both end-of-month balances are
nonnegative and the KfW balance never exceeds kfw_loan_amount; the main
loan, by contrast, is an unbounded absorber and its balance can exceed
main_loan_amount (see the counterexample below). -/
theorem loan_balance_bounds (c : Config) (hcap : 0 ≤ c.kfw_loan_amount) (m : ℕ) :
    0 ≤ (amortEntry c m).bal_kfw ∧
    (amortEntry c m).bal_kfw ≤ c.kfw_loan_amount ∧
    0 ≤ (amortEntry c m).bal_main := by
  refine ⟨?_, ?_, ?_⟩
  · rw [amortEntry_bal_kfw_state]
    exact (amortState_bal_nonneg c (m + 1)).1
  · rw [amortEntry_bal_kfw_state]
    exact amortState_kfw_cap c hcap (m + 1)
  · rw [amortEntry_bal_main_state]
    exact (amortState_bal_nonneg c (m + 1)).2

/-- C7: the bereitstellungszins is charged exactly in the simulated months
strictly before rent_start whose index since contract start has reached the
grace period; it equals max(0, main_loan_amount - main balance) times the
monthly rate (a formula that never involves the KfW loan) and is added to
the interest_main_total of the month. -/
theorem bereitstellung_rule (c : Config) (m : ℕ) :
    (c.startMonth + (m : ℤ) < c.rentStart → c.grace_period_months ≤ m →
      (amortEntry c m).provision =
        max 0 (c.main_loan_amount - (amortEntry c m).bal_main) *
          c.bereitstellungszins ∧
      (amortEntry c m).interest_main_total =
        (amortEntry c m).interest_main_drawn + (amortEntry c m).provision) ∧
    (¬ (c.startMonth + (m : ℤ) < c.rentStart ∧ c.grace_period_months ≤ m) →
      (amortEntry c m).provision = 0) := by
  have e1 : (amortEntry c m).provision =
      (payPhase c m (drawPhase c (drawAt c m) (amortState c m)).st).provision := rfl
  have e2 : (amortEntry c m).interest_main_total =
      (payPhase c m (drawPhase c (drawAt c m)
        (amortState c m)).st).interest_main_total := rfl
  have e3 : (amortEntry c m).interest_main_drawn =
      (payPhase c m (drawPhase c (drawAt c m)
        (amortState c m)).st).interest_main_drawn := rfl
  have e4 : (amortEntry c m).bal_main =
      (payPhase c m (drawPhase c (drawAt c m) (amortState c m)).st).st.bal_main :=
    rfl
  constructor
  · intro hd hg
    have hc := payPhase_construction_fields c m
      (drawPhase c (drawAt c m) (amortState c m)).st hd
    have hbal : (amortEntry c m).bal_main =
        (drawPhase c (drawAt c m) (amortState c m)).st.bal_main := by
      rw [e4, hc.2.2.1]
    constructor
    · rw [e1, hc.1, if_pos hg, hbal]
    · rw [e2, e3, e1, hc.2.1]
  · intro hn
    by_cases hd : c.startMonth + (m : ℤ) < c.rentStart
    · have hg : ¬ c.grace_period_months ≤ m := fun hg => hn ⟨hd, hg⟩
      have hc := payPhase_construction_fields c m
        (drawPhase c (drawAt c m) (amortState c m)).st hd
      rw [e1, hc.1, if_neg hg]
    · have hr := payPhase_rental_fields c m
        (drawPhase c (drawAt c m) (amortState c m)).st (not_lt.mp hd)
      rw [e1, hr.2.2.2.2.2.2.1]

lemma drawAt_cons (c : Config) (sh : ℚ) (o : ℕ) (m : ℕ) :
    drawAt { c with payment_schedule := (sh, o) :: c.payment_schedule } m =
      (if o = m then c.total_purchase_price * sh else 0) + drawAt c m := by
  simp only [drawAt, List.map_cons, List.sum_cons]
  ring

lemma amortStep_cons_late (c : Config) (sh : ℚ) (o m : ℕ) (hm : o ≠ m)
    (st : AmortState) :
    amortStep { c with payment_schedule := (sh, o) :: c.payment_schedule } m st =
      amortStep c m st := by
  unfold amortStep
  rw [drawAt_cons, if_neg hm, zero_add]
  rfl

lemma amortState_cons_late (c : Config) (sh : ℚ) (o : ℕ) (n : ℕ)
    (h : ∀ k, k < n → o ≠ k) :
    amortState { c with payment_schedule := (sh, o) :: c.payment_schedule } n =
      amortState c n := by
  induction n with
  | zero => rfl
  | succ n ih =>
    have hd : ∀ k, k < n → o ≠ k := fun k hk => h k (hk.trans (Nat.lt_succ_self n))
    show (amortStep _ n (amortState _ n)).1 = (amortStep c n (amortState c n)).1
    rw [ih hd, amortStep_cons_late c sh o n (h n (Nat.lt_succ_self n))]

/-- C9: an installment whose month offset falls after December of the final
output year is silently ignored: every simulated monthly amortization row
(draws, balances, equity consumption included) is identical with and
without it. -/
theorem late_installment_ignored (c : Config) (sh : ℚ) (o : ℕ)
    (h : c.lastMonth < c.startMonth + (o : ℤ)) :
    ∀ m : ℕ, m < c.totalMonths →
      amortEntry { c with payment_schedule := (sh, o) :: c.payment_schedule } m =
        amortEntry c m := by
  intro m hm
  simp only [Config.totalMonths] at hm
  have hk : ∀ k : ℕ, k ≤ m → o ≠ k := by
    intro k hkm
    omega
  show (amortStep _ m (amortState _ m)).2 = (amortStep c m (amortState c m)).2
  rw [amortState_cons_late c sh o m (fun k hkm => hk k hkm.le),
    amortStep_cons_late c sh o m (hk m le_rfl)]

/-! Projections of the monthly cashflow record. -/

lemma cashRecord_rent (c : Config) (m : ℕ) :
    (cashRecord c m).rent = rentAt c (c.startMonth + (m : ℤ)) := rfl

lemma cashRecord_maintenance (c : Config) (m : ℕ) :
    (cashRecord c m).maintenance = maintenanceAt c (c.startMonth + (m : ℤ)) := rfl

lemma cashRecord_sonder (c : Config) (m : ℕ) :
    (cashRecord c m).sonder =
      (if c.rentStart ≤ c.startMonth + (m : ℤ)
       then sonderMonthlyAt c (c.startMonth + (m : ℤ)) else 0) := rfl

lemma cashRecord_degressive (c : Config) (m : ℕ) :
    (cashRecord c m).degressive =
      (if c.rentStart ≤ c.startMonth + (m : ℤ)
       then degLinStep c (c.startMonth + (m : ℤ)) (remaining_deg_value c m)
       else ⟨0, 0, remaining_deg_value c m⟩).dm := rfl

lemma cashRecord_linearAfa (c : Config) (m : ℕ) :
    (cashRecord c m).linearAfa =
      (if c.rentStart ≤ c.startMonth + (m : ℤ)
       then degLinStep c (c.startMonth + (m : ℤ)) (remaining_deg_value c m)
       else ⟨0, 0, remaining_deg_value c m⟩).lm := rfl

lemma cashRecord_furnishing (c : Config) (m : ℕ) :
    (cashRecord c m).furnishing =
      (if c.rentStart ≤ c.startMonth + (m : ℤ)
       then furnishingMonthlyAt c (c.startMonth + (m : ℤ)) else 0) := rfl

lemma cashRecord_interest (c : Config) (m : ℕ) :
    (cashRecord c m).interest_total =
      (amortEntry c m).interest_kfw + (amortEntry c m).interest_main_total := rfl

lemma cashRecord_gross (c : Config) (m : ℕ) :
    (cashRecord c m).gross_income =
      (cashRecord c m).rent - (cashRecord c m).interest_total -
        ((cashRecord c m).sonder + (cashRecord c m).degressive +
          (cashRecord c m).linearAfa + (cashRecord c m).furnishing) -
        (cashRecord c m).maintenance := rfl

lemma cashRecord_tax (c : Config) (m : ℕ) :
    (cashRecord c m).tax_refund =
      -(cashRecord c m).gross_income * c.tax_rate := rfl

lemma remaining_deg_value_succ (c : Config) (m : ℕ) :
    remaining_deg_value c (m + 1) =
      (if c.rentStart ≤ c.startMonth + (m : ℤ)
       then degLinStep c (c.startMonth + (m : ℤ)) (remaining_deg_value c m)
       else ⟨0, 0, remaining_deg_value c m⟩).rem := rfl

/-! Facts about the degressive base update. -/

lemma degLinStep_rem_nonneg (c : Config) (date : ℤ) (deg : ℚ) (h : 0 ≤ deg) :
    0 ≤ (degLinStep c date deg).rem := by
  unfold degLinStep
  dsimp only
  split_ifs with h1 h2 h3
  · exact le_max_left 0 _
  · exact le_max_left 0 _
  · exact h
  · exact h

lemma degLinStep_rem_le (c : Config) (date : ℤ) (deg : ℚ) (h : 0 ≤ deg)
    (hr : 0 ≤ c.degressive_afa_rate) : (degLinStep c date deg).rem ≤ deg := by
  unfold degLinStep
  dsimp only
  split_ifs with h1 h2 h3
  · exact max_le h (sub_le_self deg (by positivity))
  · refine max_le h3.le (sub_le_self deg ?_)
    have h4 : (0 : ℚ) < (↑(min (c.rentStart + 12 * c.useful_years_int - 1)
        c.lastMonth - date + 1) : ℚ) := by
      exact_mod_cast h2
    positivity
  · exact le_refl deg
  · exact le_refl deg

/-- C2: the running degressive depreciation base starts at
total_investment * land_ratio, still has that value at the start of the
first rental month (and any earlier month), and over the whole horizon it
is non-increasing and never negative. -/
theorem degressive_base_invariant (c : Config) (hv : 0 ≤ c.total_afa_value)
    (hr : 0 ≤ c.degressive_afa_rate) :
    remaining_deg_value c 0 = c.total_investment * c.land_ratio ∧
    (∀ n : ℕ, c.startMonth + (n : ℤ) ≤ c.rentStart →
      remaining_deg_value c n = c.total_investment * c.land_ratio) ∧
    (∀ n : ℕ, 0 ≤ remaining_deg_value c n) ∧
    (∀ n : ℕ, remaining_deg_value c (n + 1) ≤ remaining_deg_value c n) := by
  have hnn : ∀ n : ℕ, 0 ≤ remaining_deg_value c n := by
    intro n
    induction n with
    | zero => exact hv
    | succ n ih =>
      rw [remaining_deg_value_succ]
      split_ifs with h1
      · exact degLinStep_rem_nonneg c _ _ ih
      · exact ih
  refine ⟨rfl, ?_, hnn, ?_⟩
  · intro n hn
    induction n with
    | zero => rfl
    | succ n ih =>
      have hn1 : c.startMonth + (n : ℤ) ≤ c.rentStart := by
        push_cast at hn ⊢
        omega
      have hlt : ¬ c.rentStart ≤ c.startMonth + (n : ℤ) := by
        push_cast at hn ⊢
        omega
      rw [remaining_deg_value_succ, if_neg hlt]
      exact ih hn1
  · intro n
    rw [remaining_deg_value_succ]
    split_ifs with h1
    · exact degLinStep_rem_le c _ _ (hnn n) hr
    · exact le_refl _

/-- C4: every monthly record satisfies the taxable-income identity
gross_income = rent - total interest - total depreciation - maintenance and
the exact tax adjustment tax_refund = -gross_income * tax_rate; with a
positive marginal rate a negative taxable income yields a positive refund
and a positive one a charge. -/
theorem tax_adjustment_rule (c : Config) (m : ℕ) :
    (cashRecord c m).gross_income =
      (cashRecord c m).rent - (cashRecord c m).interest_total -
        ((cashRecord c m).sonder + (cashRecord c m).degressive +
          (cashRecord c m).linearAfa + (cashRecord c m).furnishing) -
        (cashRecord c m).maintenance ∧
    (cashRecord c m).tax_refund = -(cashRecord c m).gross_income * c.tax_rate ∧
    (0 < c.tax_rate →
      ((cashRecord c m).gross_income < 0 → 0 < (cashRecord c m).tax_refund) ∧
      (0 < (cashRecord c m).gross_income → (cashRecord c m).tax_refund < 0)) := by
  refine ⟨cashRecord_gross c m, cashRecord_tax c m, ?_⟩
  intro ht
  constructor
  · intro hg
    rw [cashRecord_tax]
    exact mul_pos (neg_pos.mpr hg) ht
  · intro hg
    rw [cashRecord_tax]
    exact mul_neg_of_neg_of_pos (neg_lt_zero.mpr hg) ht

lemma monthOf_bounds (d : ℤ) : 1 ≤ monthOf d ∧ monthOf d ≤ 12 := by
  unfold monthOf
  have h1 := Int.emod_nonneg d (by norm_num : (12 : ℤ) ≠ 0)
  have h2 := Int.emod_lt_of_pos d (by norm_num : (0 : ℤ) < 12)
  omega

/-- C5: for months at or after rent_start, the monthly Sonder-AfA equals
the full annual amount divided by the calendar months remaining in the
completion year counted from the rent_start month while year_index is 0
(and sonder is active), the annual amount divided by 12 in later active
years, and 0 once year_index reaches sonder_afa_years. -/
theorem sonder_afa_rule (c : Config) (m : ℕ)
    (h : c.rentStart ≤ c.startMonth + (m : ℤ)) :
    (0 < c.sonder_afa_years →
      yearOf (c.startMonth + (m : ℤ)) - yearOf c.rentStart = 0 →
      (cashRecord c m).sonder =
        c.sonder_afa_base_amount * c.sonder_afa_rate /
          ((13 - monthOf c.rentStart : ℤ) : ℚ)) ∧
    (1 ≤ yearOf (c.startMonth + (m : ℤ)) - yearOf c.rentStart →
      yearOf (c.startMonth + (m : ℤ)) - yearOf c.rentStart <
        (c.sonder_afa_years : ℤ) →
      (cashRecord c m).sonder =
        c.sonder_afa_base_amount * c.sonder_afa_rate / 12) ∧
    ((c.sonder_afa_years : ℤ) ≤ yearOf (c.startMonth + (m : ℤ)) - yearOf c.rentStart →
      (cashRecord c m).sonder = 0) := by
  rw [cashRecord_sonder, if_pos h]
  unfold sonderMonthlyAt
  refine ⟨?_, ?_, ?_⟩
  · intro hs hyi
    rw [hyi]
    have hpos : (0 : ℤ) < (c.sonder_afa_years : ℤ) := by exact_mod_cast hs
    rw [if_pos hpos, if_pos rfl]
    have hm12 := monthOf_bounds c.rentStart
    have hrm : (0 : ℤ) < 12 - (monthOf c.rentStart - 1) := by omega
    rw [if_pos hrm]
    rw [show (12 : ℤ) - (monthOf c.rentStart - 1) = 13 - monthOf c.rentStart from
      by ring]
  · intro h1 h2
    rw [if_pos h2, if_neg (by omega)]
  · intro h3
    rw [if_neg (not_lt.mpr h3)]

lemma rentAt_of_rental (c : Config) (date : ℤ) (h : c.rentStart ≤ date) :
    rentAt c date =
      c.rent_total * (1 + c.rent_growth_rate) ^
        (max 0 ((date - c.rentStart).fdiv 12)).toNat := by
  unfold rentAt
  rw [if_pos h]

lemma maintenanceAt_of_rental (c : Config) (date : ℤ) (h : c.rentStart ≤ date) :
    maintenanceAt c date =
      c.maintenance_total * (1 + c.maintenance_growth) ^
        (max 0 (yearOf date - (yearOf c.rentStart + 1))).toNat := by
  unfold maintenanceAt
  rw [if_pos h]

/-- C6 (amended): from rent_start on, maintenance escalates by the
calendar-January rule (base level through the rent_start year and the
following calendar year, then compounding once per later January), while
rent escalates by a different rule, compounding once per full 12 months
elapsed since rent_start (an anniversary rule); the two therefore do not
share the calendar-January rule (see the counterexample). -/
theorem rent_maintenance_growth_rule (c : Config) (m : ℕ)
    (h : c.rentStart ≤ c.startMonth + (m : ℤ)) :
    (cashRecord c m).rent =
      c.rent_total * (1 + c.rent_growth_rate) ^
        (max 0 ((c.startMonth + (m : ℤ) - c.rentStart).fdiv 12)).toNat ∧
    (cashRecord c m).maintenance =
      c.maintenance_total * (1 + c.maintenance_growth) ^
        (max 0 (yearOf (c.startMonth + (m : ℤ)) -
          (yearOf c.rentStart + 1))).toNat := by
  rw [cashRecord_rent, cashRecord_maintenance]
  exact ⟨rentAt_of_rental c _ h, maintenanceAt_of_rental c _ h⟩

/-- C10: in every month strictly before rent_start the cashflow record has
zero rent, zero maintenance and four zero depreciation components, so its
taxable income is minus the total interest (commitment fee included), and
with nonnegative rates and a positive marginal tax rate the tax adjustment
is a refund, strictly positive as soon as any interest or fee accrues. -/
theorem pre_rental_record_rule (c : Config) (m : ℕ)
    (h : c.startMonth + (m : ℤ) < c.rentStart) :
    (cashRecord c m).rent = 0 ∧
    (cashRecord c m).maintenance = 0 ∧
    (cashRecord c m).sonder = 0 ∧
    (cashRecord c m).degressive = 0 ∧
    (cashRecord c m).linearAfa = 0 ∧
    (cashRecord c m).furnishing = 0 ∧
    (cashRecord c m).gross_income = -(cashRecord c m).interest_total ∧
    (0 ≤ c.kfw_interest_rate → 0 ≤ c.main_loan_rate →
      0 ≤ c.bereitstellungszins → 0 < c.tax_rate →
      0 ≤ (cashRecord c m).tax_refund ∧
      (0 < (cashRecord c m).interest_total → 0 < (cashRecord c m).tax_refund)) := by
  have hn : ¬ c.rentStart ≤ c.startMonth + (m : ℤ) := not_le.mpr h
  have hrent : (cashRecord c m).rent = 0 := by
    rw [cashRecord_rent]
    unfold rentAt
    rw [if_neg hn]
  have hmaint : (cashRecord c m).maintenance = 0 := by
    rw [cashRecord_maintenance]
    unfold maintenanceAt
    rw [if_neg hn]
  have hsonder : (cashRecord c m).sonder = 0 := by
    rw [cashRecord_sonder, if_neg hn]
  have hdeg : (cashRecord c m).degressive = 0 := by
    rw [cashRecord_degressive, if_neg hn]
  have hlin : (cashRecord c m).linearAfa = 0 := by
    rw [cashRecord_linearAfa, if_neg hn]
  have hfurn : (cashRecord c m).furnishing = 0 := by
    rw [cashRecord_furnishing, if_neg hn]
  have hgross : (cashRecord c m).gross_income = -(cashRecord c m).interest_total := by
    rw [cashRecord_gross, hrent, hmaint, hsonder, hdeg, hlin, hfurn]
    ring
  refine ⟨hrent, hmaint, hsonder, hdeg, hlin, hfurn, hgross, ?_⟩
  intro hk hm hb ht
  have hcf := payPhase_construction_fields c m
    (drawPhase c (drawAt c m) (amortState c m)).st h
  have hik : 0 ≤ (payPhase c m
      (drawPhase c (drawAt c m) (amortState c m)).st).interest_kfw := by
    rw [hcf.2.2.2.1]
    split_ifs with hb1
    · exact div_nonneg (mul_nonneg hb1.le hk) (by norm_num)
    · exact le_refl 0
  have himd : 0 ≤ (payPhase c m
      (drawPhase c (drawAt c m) (amortState c m)).st).interest_main_drawn := by
    rw [hcf.2.2.2.2.1]
    split_ifs with hb1
    · exact div_nonneg (mul_nonneg hb1.le hm) (by norm_num)
    · exact le_refl 0
  have hprov : 0 ≤ (payPhase c m
      (drawPhase c (drawAt c m) (amortState c m)).st).provision := by
    rw [hcf.1]
    split_ifs with hg
    · exact mul_nonneg (le_max_left 0 _) hb
    · exact le_refl 0
  have hit : 0 ≤ (cashRecord c m).interest_total := by
    rw [cashRecord_interest]
    have e1 : (amortEntry c m).interest_kfw = (payPhase c m
        (drawPhase c (drawAt c m) (amortState c m)).st).interest_kfw := rfl
    have e2 : (amortEntry c m).interest_main_total = (payPhase c m
        (drawPhase c (drawAt c m) (amortState c m)).st).interest_main_total := rfl
    rw [e1, e2, hcf.2.1]
    exact add_nonneg hik (add_nonneg himd hprov)
  have htr : (cashRecord c m).tax_refund =
      (cashRecord c m).interest_total * c.tax_rate := by
    rw [cashRecord_tax, hgross]
    ring
  constructor
  · rw [htr]
    exact mul_nonneg hit ht.le
  · intro hpos
    rw [htr]
    exact mul_pos hpos ht

/-- C8: the returns-table IRR is reported as 0 whenever the root-finder
fails: a degenerate all-same-sign cashflow series, or any run of the
modelled solver that ends without a result (non-convergence or a
non-finite outcome), deterministically yields 0 instead of an error. -/
theorem irr_fallback_rule (cfs : List ℚ) :
    (allSameSign cfs → irr_val cfs = 0) ∧
    (irrModel cfs = none → irr_val cfs = 0) := by
  constructor
  · intro h
    have hmod : irrModel cfs = none := by
      unfold irrModel
      rw [if_pos h]
    unfold irr_val
    rw [hmod]
  · intro h
    unfold irr_val
    rw [h]

/-- Counterexample to C3 as stated: on cfg3 the first-month main-loan
balance (105000, financing the purchase price plus the furnishing costs) is
strictly greater than main_loan_amount (100000). -/
theorem main_balance_exceeds_limit :
    cfg3.main_loan_amount < (amortEntry cfg3 0).bal_main := by
  norm_num [amortEntry, amortStep, amortState, initState, drawPhase, payPhase,
    drawAt, cfg3, Config.main_loan_amount, Config.total_investment,
    Config.startMonth, Config.rentStart, min_def, max_def]

/-- Counterexample to C6 as stated: on cfg6 (rent_start July 2027) the rent
of July 2028 is already escalated (12 months elapsed), while the
calendar-January rule the claim asserts would still give the base rent. -/
theorem rent_growth_not_calendar_rule :
    (cashRecord cfg6 18).rent ≠
      rentCalendarRule cfg6 (cfg6.startMonth + ((18 : ℕ) : ℤ)) := by
  rw [cashRecord_rent, rentAt_of_rental cfg6 _ (by decide)]
  unfold rentCalendarRule
  have h1 : (max 0 ((cfg6.startMonth + ((18 : ℕ) : ℤ) -
      cfg6.rentStart).fdiv 12)).toNat = 1 := by decide
  have h2 : (max 0 (yearOf (cfg6.startMonth + ((18 : ℕ) : ℤ)) -
      (yearOf cfg6.rentStart + 1))).toNat = 0 := by decide
  rw [h1, h2]
  norm_num [cfg6]

/-- Witness for C1 at cfg1, month 0 (a rental month). -/
theorem rental_phase_rule_witness :
    cfg1.rentStart ≤ cfg1.startMonth + ((0 : ℕ) : ℤ) ∧
    0 ≤ (amortEntry cfg1 0).bal_kfw ∧ 0 ≤ (amortEntry cfg1 0).bal_main :=
  ⟨by decide, (rental_phase_amortization_rule cfg1 0 (by decide)).2.2.2.2⟩

/-- Witness for C2 at cfg0. -/
theorem degressive_base_invariant_witness :
    0 ≤ cfg0.total_afa_value ∧ 0 ≤ cfg0.degressive_afa_rate ∧
    remaining_deg_value cfg0 0 = cfg0.total_investment * cfg0.land_ratio :=
  ⟨by norm_num [cfg0, Config.total_afa_value, Config.total_investment],
   by norm_num [cfg0],
   (degressive_base_invariant cfg0
     (by norm_num [cfg0, Config.total_afa_value, Config.total_investment])
     (by norm_num [cfg0])).1⟩

/-- Witness for the amended C3 at cfg0, month 5. -/
theorem loan_balance_bounds_witness :
    0 ≤ cfg0.kfw_loan_amount ∧
    (0 ≤ (amortEntry cfg0 5).bal_kfw ∧
      (amortEntry cfg0 5).bal_kfw ≤ cfg0.kfw_loan_amount ∧
      0 ≤ (amortEntry cfg0 5).bal_main) :=
  ⟨by norm_num [cfg0], loan_balance_bounds cfg0 (by norm_num [cfg0]) 5⟩

/-- Witness for C4 at cfg4, month 0: the taxable income is negative (only
interest accrues) and the tax adjustment is a positive refund. -/
theorem tax_adjustment_rule_witness :
    0 < cfg4.tax_rate ∧ (cashRecord cfg4 0).gross_income < 0 ∧
    0 < (cashRecord cfg4 0).tax_refund := by
  have hg : (cashRecord cfg4 0).gross_income < 0 := by
    norm_num [cashRecord, cashStep, rentAt, maintenanceAt, amortEntry, amortStep,
      amortState, initState, drawPhase, payPhase, drawAt, remaining_deg_value,
      cfg4, Config.startMonth, Config.rentStart, Config.main_loan_amount,
      Config.total_investment, Config.total_afa_value, min_def, max_def]
  exact ⟨by norm_num [cfg4], hg,
    ((tax_adjustment_rule cfg4 0).2.2 (by norm_num [cfg4])).1 hg⟩

/-- Witness for C5 at cfg1, month 0 (completion year). -/
theorem sonder_afa_rule_witness :
    0 < cfg1.sonder_afa_years ∧
    (cashRecord cfg1 0).sonder =
      cfg1.sonder_afa_base_amount * cfg1.sonder_afa_rate /
        ((13 - monthOf cfg1.rentStart : ℤ) : ℚ) :=
  ⟨by decide, (sonder_afa_rule cfg1 0 (by decide)).1 (by decide) (by decide)⟩

/-- Witness for the amended C6 at cfg6, month 18. -/
theorem rent_maintenance_growth_rule_witness :
    cfg6.rentStart ≤ cfg6.startMonth + ((18 : ℕ) : ℤ) ∧
    (cashRecord cfg6 18).rent =
      cfg6.rent_total * (1 + cfg6.rent_growth_rate) ^
        (max 0 ((cfg6.startMonth + ((18 : ℕ) : ℤ) -
          cfg6.rentStart).fdiv 12)).toNat :=
  ⟨by decide, (rent_maintenance_growth_rule cfg6 18 (by decide)).1⟩

/-- Witness for C7 at cfg0, month 8 (construction, grace period over). -/
theorem bereitstellung_rule_witness :
    cfg0.startMonth + ((8 : ℕ) : ℤ) < cfg0.rentStart ∧
    cfg0.grace_period_months ≤ 8 ∧
    (amortEntry cfg0 8).provision =
      max 0 (cfg0.main_loan_amount - (amortEntry cfg0 8).bal_main) *
        cfg0.bereitstellungszins :=
  ⟨by decide, by decide, ((bereitstellung_rule cfg0 8).1 (by decide) (by decide)).1⟩

/-- Witness for C8 on a degenerate (all-positive) series. -/
theorem irr_fallback_rule_witness :
    allSameSign [1, 2] ∧ irr_val [1, 2] = 0 :=
  ⟨by decide, (irr_fallback_rule [1, 2]).1 (by decide)⟩

/-- Witness for C9 at cfg0 with an installment offset of 1000 months. -/
theorem late_installment_ignored_witness :
    cfg0.lastMonth < cfg0.startMonth + ((1000 : ℕ) : ℤ) ∧
    amortEntry { cfg0 with payment_schedule := (1/2, 1000) :: cfg0.payment_schedule } 0 =
      amortEntry cfg0 0 :=
  ⟨by decide, late_installment_ignored cfg0 (1/2) 1000 (by decide) 0 (by decide)⟩

/-- Witness for C10 at cfg0, month 0 (a construction month). -/
theorem pre_rental_record_rule_witness :
    cfg0.startMonth + ((0 : ℕ) : ℤ) < cfg0.rentStart ∧
    (cashRecord cfg0 0).rent = 0 :=
  ⟨by decide, (pre_rental_record_rule cfg0 0 (by decide)).1⟩
